import Mathlib

/-!
Verification development for the household financial simulation repository.

Floating-point values are modelled as rationals.  numpy's global random
generator is modelled as an explicit stream of raw draws together with a
position; every primitive draw (np.random.random, np.random.lognormal,
np.random.normal, np.random.choice) consumes one element of the stream.
Re-seeding (np.random.seed s) replaces the stream by a stream determined
by the seed.  Transcendental operations (log, exp, sqrt) and the
distribution transforms applied to raw draws are kept abstract as fields
of an `Ops` structure; no verified property depends on their values.
-/

namespace HouseholdSim

/-- State of the process-wide random generator: a stream of raw draws and
the position of the next draw. -/
structure RNGState where
  stream : Nat → ℚ
  pos : Nat

/-- Consume one raw draw from the generator. -/
def RNGState.next (s : RNGState) : ℚ × RNGState :=
  (s.stream s.pos, ⟨s.stream, s.pos + 1⟩)

/-- Abstract machine-level operations: the seed-to-stream function of the
random generator, transcendental functions, and the transforms turning a
raw draw into a lognormal / normal sample or a choice of indices. -/
structure Ops where
  seedStream : Nat → Nat → ℚ
  log : ℚ → ℚ
  exp : ℚ → ℚ
  sqrt : ℚ → ℚ
  lognormalFromDraw : ℚ → ℚ → ℚ → ℚ
  normalFromDraw : ℚ → ℚ → ℚ → ℚ
  choiceFromDraw : Nat → Nat → ℚ → List Nat

/-- Model of np.random.seed. -/
def npSeed (ops : Ops) (s : Nat) : RNGState :=
  ⟨ops.seedStream s, 0⟩

/-- Model of the conditional re-seeding `if seed is not None: np.random.seed(seed)`:
with a seed the previous generator state is discarded, without one it is kept. -/
def seedOr (ops : Ops) (seed : Option Nat) (s : RNGState) : RNGState :=
  match seed with
  | some v => npSeed ops v
  | none => s

/-- Model of np.mean on a list (division by zero yields 0 for the empty list). -/
def meanQ (l : List ℚ) : ℚ := l.sum / l.length

/-- Model of np.var (population variance, ddof = 0). -/
def popVar (l : List ℚ) : ℚ :=
  ((l.map (fun x => (x - meanQ l) ^ 2)).sum) / l.length

/-- Central moment of order k, as used by scipy.stats moment computations. -/
def centralMoment (k : Nat) (l : List ℚ) : ℚ :=
  ((l.map (fun x => (x - meanQ l) ^ k)).sum) / l.length

/-- Model of the off-diagonal entry of np.cov (sample covariance, ddof = 1). -/
def sampleCov (a b : List ℚ) : ℚ :=
  ((List.zipWith (fun x y => (x - meanQ a) * (y - meanQ b)) a b).sum) / ((a.length : ℚ) - 1)

/-- Sorting of a list of rationals, as done internally by np.percentile and np.median. -/
def sortQ (l : List ℚ) : List ℚ := l.insertionSort (· ≤ ·)

/-- Linear interpolation of a sorted sequence at a fractional index, the
interpolation rule used by np.percentile. -/
def interpAt (s : List ℚ) (h : ℚ) : ℚ :=
  s.getD (Int.floor h).toNat 0 +
    (h - (Int.floor h : ℚ)) * (s.getD (Int.ceil h).toNat 0 - s.getD (Int.floor h).toNat 0)

/-- Model of np.percentile with the default linear interpolation. -/
def percentile (p : ℚ) (l : List ℚ) : ℚ :=
  interpAt (sortQ l) (p / 100 * ((l.length : ℚ) - 1))

/-- Model of np.median: middle element of the sorted list, or the average of
the two middle elements for even length. -/
def medianQ (l : List ℚ) : ℚ :=
  let s := sortQ l
  let n := s.length
  if n % 2 = 1 then s.getD (n / 2) 0
  else (s.getD (n / 2 - 1) 0 + s.getD (n / 2) 0) / 2

/-- Minimum of a list, 0 for the empty list (only applied to nonempty lists). -/
def listMin : List ℚ → ℚ
  | [] => 0
  | x :: xs => xs.foldl min x

/-- Parameters of the compound-jump income model
(src/backend/risk_engine.py, docstring of simulate_trajectory). -/
structure JumpParams where
  lam : ℚ
  jump_median_pct : ℚ
  jump_q25 : ℚ
  jump_q75 : ℚ
  prob_upward : ℚ
deriving DecidableEq

/-- The bounded lognormal scale parameter of the jump model
(src/backend/risk_engine.py lines 48-50): ratio of quartiles with a
fallback of 2 when jump_q25 is not positive, log divided by 1.35,
clamped to [0.1, 1]. -/
def jumpSigma (ops : Ops) (P : JumpParams) : ℚ :=
  let q := if P.jump_q25 > 0 then P.jump_q75 / P.jump_q25 else 2
  max (1 / 10) (min (ops.log q / (27 / 20)) 1)

/-- One month of the jump model (src/backend/risk_engine.py lines 54-66):
draw for jump arrival; on a jump, draw the lognormal magnitude capped at 2,
draw the direction, apply multiplicatively and floor at 100; otherwise keep
the previous income. -/
def jumpStep (ops : Ops) (P : JumpParams) (mu sigma prev : ℚ) (s : RNGState) :
    ℚ × RNGState :=
  let u := s.next
  if u.1 < P.lam then
    let r := u.2.next
    let jp := min (ops.lognormalFromDraw mu sigma r.1) 2
    let d := r.2.next
    let x := if d.1 < P.prob_upward then prev * (1 + jp) else prev * max (1 / 100) (1 - jp)
    (max 100 x, d.2)
  else (prev, u.2)

/-- The loop over months t = 1 .. n_months-1 of the jump model. -/
def jumpLoop (ops : Ops) (P : JumpParams) (mu sigma : ℚ) :
    Nat → ℚ → RNGState → List ℚ × RNGState
  | 0, _, s => ([], s)
  | k + 1, prev, s =>
    let x := jumpStep ops P mu sigma prev s
    let rest := jumpLoop ops P mu sigma k x.1 x.2
    (x.1 :: rest.1, rest.2)

namespace RiskEngine

/-- Embedding of RiskEngine.simulate_trajectory (src/backend/risk_engine.py
lines 14-68): optional re-seeding, first element equal to the initial
income, and the jump-model loop for the remaining months.  Returns the
trajectory together with the final generator state. -/
def simulate_trajectory (ops : Ops) (initial_income : ℚ) (n_months : Nat)
    (P : JumpParams) (seed : Option Nat) (s : RNGState) : List ℚ × RNGState :=
  let s0 := seedOr ops seed s
  let mu := ops.log P.jump_median_pct
  let sigma := jumpSigma ops P
  match n_months with
  | 0 => ([], s0)
  | k + 1 =>
    let rest := jumpLoop ops P mu sigma k initial_income s0
    (initial_income :: rest.1, rest.2)

end RiskEngine

namespace AR1Model

/-- The loop over months t = 1 .. n_months-1 of the AR(1) model in log space
(src/data_analysis/src/ar1_model.py lines 125-127). -/
def ar1Loop (ops : Ops) (rho sigma muH : ℚ) :
    Nat → ℚ → RNGState → List ℚ × RNGState
  | 0, _, s => ([], s)
  | k + 1, prev, s =>
    let r := s.next
    let shock := ops.normalFromDraw 0 sigma r.1
    let x := muH + rho * (prev - muH) + shock
    let rest := ar1Loop ops rho sigma muH k x r.2
    (x :: rest.1, rest.2)

/-- Embedding of AR1Model.simulate_trajectory (src/data_analysis/src/ar1_model.py
lines 99-132): mean-reverting recursion in log-income space around the
household equilibrium log(initial_income), then exponentiation and the
elementwise floor np.maximum(income, 100). -/
def simulate_trajectory (ops : Ops) (initial_income : ℚ) (n_months : Nat)
    (rho sigma : ℚ) (seed : Option Nat) (s : RNGState) : List ℚ × RNGState :=
  let s0 := seedOr ops seed s
  let l0 := ops.log initial_income
  match n_months with
  | 0 => ([], s0)
  | k + 1 =>
    let rest := ar1Loop ops rho sigma l0 k l0 s0
    ((l0 :: rest.1).map (fun l => max (ops.exp l) 100), rest.2)

end AR1Model

/-- Accumulated output of the per-trial month loop of the full-horizon
balance simulation (src/backend/risk_engine.py lines 131-149): the recorded
balances and credit-exhaustion flags after the initial entries, the final
balance, and the per-trial scalars. -/
structure TrialOut where
  pathTail : List ℚ
  trackTail : List Bool
  finalBalance : ℚ
  wentNegative : Bool
  firstNegativeMonth : Option Nat
  exhaustedCredit : Bool
  totalInterest : ℚ
deriving DecidableEq

/-- Embedding of the month loop of simulate_financial_outcomes
(src/backend/risk_engine.py lines 131-149).  Arguments after the income
list: running balance, went_negative, first_negative_month,
exhausted_credit, total_interest, and the 0-based month index. -/
def trialLoop (E R C : ℚ) :
    List ℚ → ℚ → Bool → Option Nat → Bool → ℚ → Nat → TrialOut
  | [], b, wn, fn, exh, ti, _ => ⟨[], [], b, wn, fn, exh, ti⟩
  | inc :: rest, b, wn, fn, exh, ti, idx =>
    let b1 := b + (inc - E)
    if b1 < 0 then
      let interest := b1 * (R / 12)
      let b2 := b1 + interest
      let ti2 := ti + |interest|
      let fn2 := if wn then fn else some (idx + 1)
      let exh2 := if b2 < -C then true else exh
      let o := trialLoop E R C rest b2 true fn2 exh2 ti2 (idx + 1)
      ⟨b2 :: o.pathTail, exh2 :: o.trackTail, o.finalBalance, o.wentNegative,
        o.firstNegativeMonth, o.exhaustedCredit, o.totalInterest⟩
    else
      let o := trialLoop E R C rest b1 wn fn exh ti (idx + 1)
      ⟨b1 :: o.pathTail, exh :: o.trackTail, o.finalBalance, o.wentNegative,
        o.firstNegativeMonth, o.exhaustedCredit, o.totalInterest⟩

/-- Result of one full-horizon trial: the balance path (starting with the
initial fund), the per-month credit-exhaustion row of the tracker
(false at month 0), and the per-trial scalars. -/
structure TrialResult where
  path : List ℚ
  tracker : List Bool
  terminal : ℚ
  wentNegative : Bool
  firstNegativeMonth : Option Nat
  exhaustedCredit : Bool
  totalInterest : ℚ
deriving DecidableEq

instance : Inhabited TrialResult := ⟨⟨[], [], 0, false, none, false, 0⟩⟩

/-- One full-horizon trial of simulate_financial_outcomes
(src/backend/risk_engine.py lines 122-156): balance starts at the initial
fund, the tracker row starts false, and the month loop runs over the whole
income trajectory. -/
def runTrial (fund E R C : ℚ) (incomes : List ℚ) : TrialResult :=
  let o := trialLoop E R C incomes fund false none false 0 0
  ⟨fund :: o.pathTail, false :: o.trackTail, o.finalBalance, o.wentNegative,
    o.firstNegativeMonth, o.exhaustedCredit, o.totalInterest⟩

/-- The per-trial seed of simulate_financial_outcomes: the Python expression
`seed=i if seed else None`, under which both None and 0 are falsy. -/
def innerSeed (seed : Option Nat) (i : Nat) : Option Nat :=
  match seed with
  | none => none
  | some 0 => none
  | some _ => some i

/-- The trial loop of simulate_financial_outcomes (src/backend/risk_engine.py
lines 117-162), threading the global generator through the trials. -/
def simTrialsAux (ops : Ops) (fund E inc0 C R : ℚ) (n_months : Nat)
    (P : JumpParams) (seed : Option Nat) :
    Nat → Nat → RNGState → List TrialResult × RNGState
  | _, 0, s => ([], s)
  | i, k + 1, s =>
    let tr := RiskEngine.simulate_trajectory ops inc0 n_months P (innerSeed seed i) s
    let res := runTrial fund E R C tr.1
    let rest := simTrialsAux ops fund E inc0 C R n_months P seed (i + 1) k tr.2
    (res :: rest.1, rest.2)

/-- The list of per-trial results of one run of simulate_financial_outcomes. -/
def simTrials (ops : Ops) (fund E inc0 C R : ℚ) (n_months : Nat)
    (P : JumpParams) (seed : Option Nat) (n_sims : Nat) (s : RNGState) :
    List TrialResult :=
  (simTrialsAux ops fund E inc0 C R n_months P seed 0 n_sims s).1

/-- Column m of the matrix of balance paths (all_paths[:, m]). -/
def colAt (paths : List (List ℚ)) (m : Nat) : List ℚ :=
  paths.map (fun row => row.getD m 0)

/-- The per-month percentile curve np.percentile(all_paths, p, axis=0). -/
def percentileCurve (p : ℚ) (paths : List (List ℚ)) (nMonths : Nat) : List ℚ :=
  (List.range (nMonths + 1)).map (fun m => percentile p (colAt paths m))

/-- The aggregate_stats dictionary (src/backend/risk_engine.py lines 164-172). -/
structure AggregateStats where
  months : List Nat
  mean : List ℚ
  p5 : List ℚ
  p10 : List ℚ
  p25 : List ℚ
  p50 : List ℚ
  p75 : List ℚ
  p90 : List ℚ
  p95 : List ℚ
deriving DecidableEq

/-- The terminal_stats dictionary (src/backend/risk_engine.py lines 174-182). -/
structure TerminalStats where
  mean : ℚ
  median : ℚ
  std : ℚ
  p5 : ℚ
  p10 : ℚ
  p25 : ℚ
  p50 : ℚ
  p75 : ℚ
  p90 : ℚ
  p95 : ℚ
deriving DecidableEq

/-- The statistics dictionary (src/backend/risk_engine.py lines 188-202). -/
structure SimStatistics where
  terminalStats : TerminalStats
  negativeTerminalPct : ℚ
  everNegativePct : ℚ
  creditExhaustionPct : ℚ
  medianMinBalance : ℚ
  meanMinBalance : ℚ
  medianInterestPaid : ℚ
  meanInterestPaid : ℚ
  medianMonthsToNegative : Option ℚ
deriving DecidableEq

/-- The risk_metrics dictionary (src/backend/risk_engine.py lines 214-219);
an infinite emergency-fund-months value is represented by none. -/
structure RiskMetrics where
  probabilityPositiveByMonth : List ℚ
  probabilityAboveCreditByMonth : List ℚ
  emergencyFundMonths : Option ℚ
  monthlyNetIncome : ℚ
deriving DecidableEq

/-- The metadata dictionary (src/backend/risk_engine.py lines 227-236). -/
structure SimMetadata where
  nSimulations : Nat
  nMonths : Nat
  nSamplePaths : Nat
  initialFund : ℚ
  monthlyExpenses : ℚ
  initialIncome : ℚ
  availableCredit : ℚ
  interestRate : ℚ
deriving DecidableEq

/-- The full return value of simulate_financial_outcomes
(src/backend/risk_engine.py lines 221-237). -/
structure SimOutcome where
  samplePaths : List (List ℚ)
  terminalValues : List ℚ
  aggregateStats : AggregateStats
  statistics : SimStatistics
  riskMetrics : RiskMetrics
  metadata : SimMetadata
deriving DecidableEq

namespace RiskEngine

/-- Embedding of RiskEngine.simulate_financial_outcomes
(src/backend/risk_engine.py lines 70-237): optional re-seeding, the
np.random.choice draw of the sample indices, the trial loop, and the
aggregation of percentile curves, terminal statistics, scalar risk metrics
and survival curves. -/
def simulate_financial_outcomes (ops : Ops)
    (initial_fund monthly_expenses initial_income available_credit interest_rate : ℚ)
    (n_months n_simulations : Nat) (P : JumpParams) (seed : Option Nat)
    (n_sample_paths : Nat) (s : RNGState) : SimOutcome :=
  let s0 := seedOr ops seed s
  let draw := s0.next
  let sample_indices :=
    ops.choiceFromDraw n_simulations (min n_sample_paths n_simulations) draw.1
  let trials := simTrials ops initial_fund monthly_expenses initial_income
    available_credit interest_rate n_months P seed n_simulations draw.2
  let all_paths := trials.map (·.path)
  let terminal_values := trials.map (·.terminal)
  let min_balances := trials.map (fun t => listMin t.path)
  let interest_list := trials.map (·.totalInterest)
  let months_to_negative := trials.filterMap
    (fun t => if t.wentNegative then t.firstNegativeMonth.map (fun m => (m : ℚ)) else none)
  let sample_paths := ((List.range n_simulations).zip trials).filterMap
    (fun pr => if pr.1 ∈ sample_indices then some pr.2.path else none)
  let negative_terminal_count := terminal_values.countP (fun v => decide (v < 0))
  let ever_negative_count := trials.countP (·.wentNegative)
  let credit_exhausted_count := trials.countP (·.exhaustedCredit)
  { samplePaths := sample_paths
    terminalValues := terminal_values
    aggregateStats :=
      { months := List.range (n_months + 1)
        mean := (List.range (n_months + 1)).map (fun m => meanQ (colAt all_paths m))
        p5 := percentileCurve 5 all_paths n_months
        p10 := percentileCurve 10 all_paths n_months
        p25 := percentileCurve 25 all_paths n_months
        p50 := percentileCurve 50 all_paths n_months
        p75 := percentileCurve 75 all_paths n_months
        p90 := percentileCurve 90 all_paths n_months
        p95 := percentileCurve 95 all_paths n_months }
    statistics :=
      { terminalStats :=
          { mean := meanQ terminal_values
            median := medianQ terminal_values
            std := ops.sqrt (popVar terminal_values)
            p5 := percentile 5 terminal_values
            p10 := percentile 10 terminal_values
            p25 := percentile 25 terminal_values
            p50 := percentile 50 terminal_values
            p75 := percentile 75 terminal_values
            p90 := percentile 90 terminal_values
            p95 := percentile 95 terminal_values }
        negativeTerminalPct := ((negative_terminal_count : ℚ) / n_simulations) * 100
        everNegativePct := ((ever_negative_count : ℚ) / n_simulations) * 100
        creditExhaustionPct := ((credit_exhausted_count : ℚ) / n_simulations) * 100
        medianMinBalance := medianQ min_balances
        meanMinBalance := meanQ min_balances
        medianInterestPaid := medianQ interest_list
        meanInterestPaid := meanQ interest_list
        medianMonthsToNegative :=
          if months_to_negative = [] then none else some (medianQ months_to_negative) }
    riskMetrics :=
      { probabilityPositiveByMonth := (List.range (n_months + 1)).map
          (fun m => ((all_paths.countP (fun row => decide (0 ≤ row.getD m 0)) : ℚ)
            / n_simulations) * 100)
        probabilityAboveCreditByMonth := (List.range (n_months + 1)).map
          (fun m => ((trials.countP (fun t => ! t.tracker.getD m false) : ℚ)
            / n_simulations) * 100)
        emergencyFundMonths :=
          if monthly_expenses > 0 then some (initial_fund / monthly_expenses) else none
        monthlyNetIncome := initial_income - monthly_expenses }
    metadata :=
      { nSimulations := n_simulations
        nMonths := n_months
        nSamplePaths := sample_paths.length
        initialFund := initial_fund
        monthlyExpenses := monthly_expenses
        initialIncome := initial_income
        availableCredit := available_credit
        interestRate := interest_rate } }

end RiskEngine

/-- Accumulated output of the stop-on-negative per-trial loop
(src/data_analysis/src/risk_engine.py lines 75-82): recorded balances after
the initial entry, the final balance, and the number of debt-count
increments made by the loop. -/
structure StopTrialOut where
  pathTail : List ℚ
  finalBalance : ℚ
  debtCount : Nat
deriving DecidableEq

/-- Embedding of the stop-on-negative month loop of run_risk_assessment
(src/data_analysis/src/risk_engine.py lines 75-82): the balance is updated
and recorded; as soon as it is negative the debt counter is incremented
once and the loop breaks. -/
def stopTrialLoop (E : ℚ) : List ℚ → ℚ → StopTrialOut
  | [], b => ⟨[], b, 0⟩
  | inc :: rest, b =>
    let b1 := b + (inc - E)
    if b1 < 0 then ⟨[b1], b1, 1⟩
    else
      let o := stopTrialLoop E rest b1
      ⟨b1 :: o.pathTail, o.finalBalance, o.debtCount⟩

/-- One stop-on-negative trial of run_risk_assessment
(src/data_analysis/src/risk_engine.py lines 72-85): the recorded path
starts with the initial fund. -/
def runStopTrial (fund E : ℚ) (incomes : List ℚ) : List ℚ × ℚ × Nat :=
  let o := stopTrialLoop E incomes fund
  (fund :: o.pathTail, o.finalBalance, o.debtCount)

/-- The positive observations of a household income series
(income[income > 0]). -/
def positiveObs (inc : List ℚ) : List ℚ :=
  inc.filter (fun x => decide (0 < x))

namespace AR1Model

/-- Log incomes of the positive observations of a household. -/
def logObs (ops : Ops) (h : List ℚ) : List ℚ :=
  (positiveObs h).map ops.log

/-- A household's mean log income mu_i (src/data_analysis/src/ar1_model.py line 46). -/
def muOf (ops : Ops) (h : List ℚ) : ℚ := meanQ (logObs ops h)

/-- The demeaned log income series of a household
(src/data_analysis/src/ar1_model.py line 49). -/
def demeanedLogs (ops : Ops) (h : List ℚ) : List ℚ :=
  (logObs ops h).map (fun x => x - muOf ops h)

/-- The lag variance np.var(y_t_lag) of a household
(src/data_analysis/src/ar1_model.py line 53). -/
def lagVarOf (ops : Ops) (h : List ℚ) : ℚ :=
  popVar ((demeanedLogs ops h).dropLast)

/-- A household's clamped persistence estimate rho_i
(src/data_analysis/src/ar1_model.py lines 54-55). -/
def rhoOf (ops : Ops) (h : List ℚ) : ℚ :=
  let d := demeanedLogs ops h
  max 0 (min (sampleCov (d.drop 1) d.dropLast / popVar d.dropLast) (99 / 100))

/-- A household's AR(1) residual series (src/data_analysis/src/ar1_model.py line 58). -/
def residualsOf (ops : Ops) (h : List ℚ) : List ℚ :=
  let d := demeanedLogs ops h
  List.zipWith (fun a b => a - rhoOf ops h * b) (d.drop 1) d.dropLast

/-- The inclusion test for the rho and sigma aggregates
(src/data_analysis/src/ar1_model.py lines 42 and 53): at least 6 positive
observations, at least 3 lagged pairs, and lag variance above 1e-6. -/
def qualifiesRho (ops : Ops) (h : List ℚ) : Prop :=
  6 ≤ (positiveObs h).length ∧ 3 ≤ ((demeanedLogs ops h).drop 1).length ∧
    lagVarOf ops h > 1 / 1000000

instance (ops : Ops) (h : List ℚ) : Decidable (qualifiesRho ops h) :=
  inferInstanceAs (Decidable (_ ∧ _ ∧ _))

/-- The household_means list built by the estimation loop: every household
with at least 6 positive observations contributes its mean log income
(src/data_analysis/src/ar1_model.py lines 42-47). -/
def householdMeans (ops : Ops) (data : List (List ℚ)) : List ℚ :=
  data.filterMap (fun h =>
    if 6 ≤ (positiveObs h).length then some (muOf ops h) else none)

/-- The household_rhos list built by the estimation loop
(src/data_analysis/src/ar1_model.py lines 53-56). -/
def householdRhos (ops : Ops) (data : List (List ℚ)) : List ℚ :=
  data.filterMap (fun h => if qualifiesRho ops h then some (rhoOf ops h) else none)

/-- The household_sigmas list built by the estimation loop
(src/data_analysis/src/ar1_model.py lines 58-59); np.std is the square
root of the population variance. -/
def householdSigmas (ops : Ops) (data : List (List ℚ)) : List ℚ :=
  data.filterMap (fun h =>
    if qualifiesRho ops h then some (ops.sqrt (popVar (residualsOf ops h))) else none)

/-- The estimated parameter set returned by estimate_ar1_parameters
(src/data_analysis/src/ar1_model.py lines 79-87). -/
structure AR1EstResult where
  rho : ℚ
  mu : ℚ
  sigma : ℚ
  initial_income_median : ℚ
  initial_income_std : ℚ
  n_households : Nat
  n_residuals : Nat
deriving DecidableEq

/-- Embedding of AR1Model.estimate_ar1_parameters
(src/data_analysis/src/ar1_model.py lines 19-97).  The input models the
groupby over (SSUID, SHHADID): one ordered THTOTINC series per household.
Each aggregate falls back to its default when its contribution list is
empty (Python truthiness of the list). -/
def estimate_ar1_parameters (ops : Ops) (data : List (List ℚ)) : AR1EstResult :=
  let means := householdMeans ops data
  let rhos := householdRhos ops data
  let sigmas := householdSigmas ops data
  let allInc := (data.map positiveObs).flatten
  { rho := if rhos = [] then 7 / 10 else medianQ rhos
    mu := if means = [] then 17 / 2 else medianQ means
    sigma := if sigmas = [] then 3 / 20 else medianQ sigmas
    initial_income_median := if allInc.length > 0 then medianQ allInc else 5000
    initial_income_std :=
      if allInc.length > 0 then ops.sqrt (popVar (allInc.map ops.log)) else 1 / 2
    n_households := rhos.length
    n_residuals := ((data.filter (fun h => decide (qualifiesRho ops h))).map
      (fun h => (residualsOf ops h).length)).sum }

end AR1Model

/-- The month-over-month percentage change series
np.diff(income_nonzero) / income_nonzero[:-1]. -/
def pctChanges (xs : List ℚ) : List ℚ :=
  List.zipWith (fun prev next => (next - prev) / prev) xs (xs.drop 1)

/-- Model of scipy.stats.skew (biased): undefined (nan, modelled as none)
when the second central moment vanishes, otherwise m3 / m2^(3/2). -/
def skewQ (ops : Ops) (l : List ℚ) : Option ℚ :=
  if centralMoment 2 l = 0 then none
  else some (centralMoment 3 l / (ops.sqrt (centralMoment 2 l)) ^ 3)

/-- Model of scipy.stats.kurtosis (Fisher, biased): undefined (nan,
modelled as none) when the second central moment vanishes, otherwise
m4 / m2^2 - 3. -/
def kurtQ (l : List ℚ) : Option ℚ :=
  if centralMoment 2 l = 0 then none
  else some (centralMoment 4 l / (centralMoment 2 l) ^ 2 - 3)

/-- Model of np.corrcoef[0, 1]: undefined when either series has zero
variance, otherwise the covariance normalized by both standard deviations. -/
def corrQ (ops : Ops) (a b : List ℚ) : Option ℚ :=
  if sampleCov a a = 0 ∨ sampleCov b b = 0 then none
  else some (sampleCov a b / (ops.sqrt (sampleCov a a) * ops.sqrt (sampleCov b b)))

/-- Modelled from the spec: the constant LARGE_JUMP_THRESHOLD imported from
config/config.py, a file not present in the repository snapshot; the code
comment (src/data_analysis/src/statistics.py line 56) fixes it at 30%. -/
def LARGE_JUMP_THRESHOLD : ℚ := 3 / 10

/-- The per-household volatility statistics vector returned by
calc_household_stats; nan entries are modelled as none. -/
structure HouseholdStats where
  variance : Option ℚ
  cv : Option ℚ
  jump_freq : Option ℚ
  skewness : Option ℚ
  kurtosis : Option ℚ
  autocorrelation : Option ℚ
  frac_large_jumps_25pct : Option ℚ
  frac_large_jumps_50pct : Option ℚ
  n_months : Nat
deriving DecidableEq

namespace Statistics

/-- Embedding of Statistics.calc_household_stats
(src/data_analysis/src/statistics.py lines 19-96): with fewer than 2
positive observations every statistic is nan; otherwise the variance, cv,
jump frequencies, the skewness and kurtosis of the percent changes (gated
on the number of percent changes), and the lag-1 autocorrelation. -/
def calc_household_stats (ops : Ops) (income : List ℚ) : HouseholdStats :=
  let nz := positiveObs income
  if nz.length < 2 then
    ⟨none, none, none, none, none, none, none, none, income.length⟩
  else
    let pcs := pctChanges nz
    { variance := some (popVar nz)
      cv := some (ops.sqrt (popVar nz) / meanQ nz)
      jump_freq := some (if pcs.length > 0 then
        ((pcs.countP (fun c => decide (LARGE_JUMP_THRESHOLD ≤ |c|)) : ℚ) / pcs.length) else 0)
      skewness := if 3 ≤ pcs.length then skewQ ops pcs else none
      kurtosis := if 4 ≤ pcs.length then kurtQ pcs else none
      autocorrelation := if 2 < nz.length then corrQ ops nz.dropLast (nz.drop 1) else none
      frac_large_jumps_25pct := some (if pcs.length > 0 then
        ((pcs.countP (fun c => decide ((1 : ℚ) / 4 ≤ |c|)) : ℚ) / pcs.length) else 0)
      frac_large_jumps_50pct := some (if pcs.length > 0 then
        ((pcs.countP (fun c => decide ((1 : ℚ) / 2 ≤ |c|)) : ℚ) / pcs.length) else 0)
      n_months := income.length }

end Statistics

/-- The balance update of one month as stated by the specification:
add the month's income minus the fixed expenses, then, exactly when the
resulting balance is negative, accrue interest balance * (annual_rate/12). -/
def stepBalance (E R b inc : ℚ) : ℚ :=
  let b1 := b + (inc - E)
  if b1 < 0 then b1 + b1 * (R / 12) else b1

/-- The balance path described by the specification: iterate stepBalance
along the income trajectory. -/
def specPath (E R : ℚ) : ℚ → List ℚ → List ℚ
  | _, [] => []
  | b, inc :: rest =>
    let b2 := stepBalance E R b inc
    b2 :: specPath E R b2 rest

/-- The cumulative interest described by the specification: in every month
whose post-income balance is negative, abs(balance * (annual_rate/12)) is
accumulated. -/
def specInterest (E R : ℚ) : ℚ → List ℚ → ℚ
  | _, [] => 0
  | b, inc :: rest =>
    let b1 := b + (inc - E)
    (if b1 < 0 then |b1 * (R / 12)| else 0) + specInterest E R (stepBalance E R b inc) rest

/-- The 1-based index of the first month whose post-income balance is
negative, in a balance evolution without interest before that month
(before the first negative month the two policies agree). -/
def firstNegativeMonthSpec (E : ℚ) : ℚ → List ℚ → Option Nat
  | _, [] => none
  | b, inc :: rest =>
    let b1 := b + (inc - E)
    if b1 < 0 then some 1 else (firstNegativeMonthSpec E b1 rest).map (· + 1)

/-- A concrete instance of the abstract machine operations, used to
evaluate the model on explicit inputs: the transcendental functions are
the identity and every distribution transform returns the raw draw. -/
def ops0 : Ops :=
  { seedStream := fun _ _ => 0
    log := id
    exp := id
    sqrt := id
    lognormalFromDraw := fun _ _ r => r
    normalFromDraw := fun _ _ r => r
    choiceFromDraw := fun n k _ => (List.range n).take k }

/-- A concrete ambient generator state. -/
def rng0 : RNGState := ⟨fun _ => 0, 0⟩

/-- The jump-model parameters of src/backend/config.py: lambda 0.273,
jump_median_pct 0.232, jump_q25 0.115, jump_q75 0.545, prob_upward 0.5. -/
def P0 : JumpParams :=
  ⟨273 / 1000, 29 / 125, 23 / 200, 109 / 200, 1 / 2⟩

theorem sortQ_length (l : List ℚ) : (sortQ l).length = l.length :=
  (List.perm_insertionSort _ l).length_eq

theorem sortQ_sorted (l : List ℚ) : List.Sorted (· ≤ ·) (sortQ l) :=
  List.sorted_insertionSort _ l

theorem sorted_getD_mono {l : List ℚ} (hs : List.Sorted (· ≤ ·) l) {i j : Nat}
    (hij : i ≤ j) (hj : j < l.length) : l.getD i 0 ≤ l.getD j 0 := by
  have hi : i < l.length := lt_of_le_of_lt hij hj
  rw [List.getD_eq_getElem l 0 hi, List.getD_eq_getElem l 0 hj]
  have h := hs.rel_get_of_le (a := ⟨i, hi⟩) (b := ⟨j, hj⟩) (Fin.mk_le_mk.mpr hij)
  simpa [List.get_eq_getElem] using h

theorem interpAt_lower {s : List ℚ} (hs : List.Sorted (· ≤ ·) s) {h : ℚ}
    (h0 : 0 ≤ h) (hub : h ≤ (s.length : ℚ) - 1) :
    s.getD (Int.floor h).toNat 0 ≤ interpAt s h := by
  have hflc : Int.floor h ≤ Int.ceil h := Int.floor_le_ceil h
  have hcub : Int.ceil h ≤ (s.length : ℤ) - 1 := by
    apply Int.ceil_le.mpr; push_cast; exact hub
  have hctn : (Int.ceil h).toNat < s.length := by
    have h1 : (1 : ℚ) ≤ (s.length : ℚ) := by linarith
    have hlen : 1 ≤ s.length := by exact_mod_cast h1
    omega
  have hab : s.getD (Int.floor h).toNat 0 ≤ s.getD (Int.ceil h).toNat 0 :=
    sorted_getD_mono hs (Int.toNat_le_toNat hflc) hctn
  have hfr0 : (0 : ℚ) ≤ h - Int.floor h := by
    rw [Int.self_sub_floor]; exact Int.fract_nonneg h
  unfold interpAt
  nlinarith [hab, hfr0]

theorem interpAt_upper {s : List ℚ} (hs : List.Sorted (· ≤ ·) s) {h : ℚ}
    (h0 : 0 ≤ h) (hub : h ≤ (s.length : ℚ) - 1) :
    interpAt s h ≤ s.getD (Int.ceil h).toNat 0 := by
  have hflc : Int.floor h ≤ Int.ceil h := Int.floor_le_ceil h
  have hcub : Int.ceil h ≤ (s.length : ℤ) - 1 := by
    apply Int.ceil_le.mpr; push_cast; exact hub
  have hctn : (Int.ceil h).toNat < s.length := by
    have h1 : (1 : ℚ) ≤ (s.length : ℚ) := by linarith
    have hlen : 1 ≤ s.length := by exact_mod_cast h1
    omega
  have hab : s.getD (Int.floor h).toNat 0 ≤ s.getD (Int.ceil h).toNat 0 :=
    sorted_getD_mono hs (Int.toNat_le_toNat hflc) hctn
  have hfr1 : h - Int.floor h < 1 := by
    rw [Int.self_sub_floor]; exact Int.fract_lt_one h
  have hfr0 : (0 : ℚ) ≤ h - Int.floor h := by
    rw [Int.self_sub_floor]; exact Int.fract_nonneg h
  unfold interpAt
  nlinarith [hab, hfr0, hfr1]

theorem interpAt_mono {s : List ℚ} (hs : List.Sorted (· ≤ ·) s) {h1 h2 : ℚ}
    (h0 : 0 ≤ h1) (h12 : h1 ≤ h2) (hub : h2 ≤ (s.length : ℚ) - 1) :
    interpAt s h1 ≤ interpAt s h2 := by
  have h02 : (0 : ℚ) ≤ h2 := le_trans h0 h12
  have hub1 : h1 ≤ (s.length : ℚ) - 1 := le_trans h12 hub
  have hcub2 : Int.ceil h2 ≤ (s.length : ℤ) - 1 := by
    apply Int.ceil_le.mpr; push_cast; exact hub
  have hlen : 1 ≤ s.length := by
    have h1q : (1 : ℚ) ≤ (s.length : ℚ) := by linarith
    exact_mod_cast h1q
  by_cases hc : Int.ceil h1 ≤ Int.floor h2
  · have hfub2 : (Int.floor h2).toNat < s.length := by
      have := Int.floor_le_ceil h2
      omega
    calc interpAt s h1 ≤ s.getD (Int.ceil h1).toNat 0 := interpAt_upper hs h0 hub1
      _ ≤ s.getD (Int.floor h2).toNat 0 :=
        sorted_getD_mono hs (Int.toNat_le_toNat hc) hfub2
      _ ≤ interpAt s h2 := interpAt_lower hs h02 hub
  · push_neg at hc
    have hF : Int.floor h1 ≤ Int.floor h2 := Int.floor_le_floor h12
    have hC : Int.ceil h1 ≤ Int.ceil h2 := Int.ceil_le_ceil h12
    have hC1 : Int.ceil h1 ≤ Int.floor h1 + 1 := Int.ceil_le_floor_add_one h1
    have hC2 : Int.ceil h2 ≤ Int.floor h2 + 1 := Int.ceil_le_floor_add_one h2
    have hFeq : Int.floor h1 = Int.floor h2 := by omega
    have hCeq : Int.ceil h1 = Int.ceil h2 := by omega
    have hctn : (Int.ceil h1).toNat < s.length := by omega
    have hab : s.getD (Int.floor h1).toNat 0 ≤ s.getD (Int.ceil h1).toNat 0 :=
      sorted_getD_mono hs (Int.toNat_le_toNat (Int.floor_le_ceil h1)) hctn
    unfold interpAt
    rw [← hFeq, ← hCeq]
    nlinarith [hab, h12]

theorem percentile_mono (l : List ℚ) (hne : l ≠ []) {p q : ℚ}
    (hp : 0 ≤ p) (hpq : p ≤ q) (hq : q ≤ 100) :
    percentile p l ≤ percentile q l := by
  have hlpos : 0 < l.length := List.length_pos.mpr hne
  have hsub : (0 : ℚ) ≤ (l.length : ℚ) - 1 := by
    have : (1 : ℚ) ≤ (l.length : ℚ) := by exact_mod_cast hlpos
    linarith
  have hsl : ((sortQ l).length : ℚ) = (l.length : ℚ) := by
    exact_mod_cast sortQ_length l
  unfold percentile
  apply interpAt_mono (sortQ_sorted l)
  · exact mul_nonneg (by positivity) hsub
  · exact mul_le_mul_of_nonneg_right
      ((div_le_div_iff_of_pos_right (by norm_num)).mpr hpq) hsub
  · rw [hsl]
    have hq1 : q / 100 ≤ 1 := (div_le_one (by norm_num)).mpr hq
    nlinarith [hsub, hq1]

theorem jumpStep_ge (ops : Ops) (P : JumpParams) (mu sigma prev : ℚ)
    (s : RNGState) (hprev : 100 ≤ prev) :
    100 ≤ (jumpStep ops P mu sigma prev s).1 := by
  unfold jumpStep
  by_cases hu : (s.next).1 < P.lam
  · simp only [hu, if_pos]
    exact le_max_left _ _
  · simp only [hu, if_neg, ite_false]
    exact hprev

theorem jumpLoop_ge (ops : Ops) (P : JumpParams) (mu sigma : ℚ) :
    ∀ (k : Nat) (prev : ℚ) (s : RNGState), 100 ≤ prev →
      ∀ x ∈ (jumpLoop ops P mu sigma k prev s).1, 100 ≤ x := by
  intro k
  induction k with
  | zero => intro prev s _ x hx; simp [jumpLoop] at hx
  | succ n ih =>
    intro prev s hprev x hx
    simp only [jumpLoop, List.mem_cons] at hx
    rcases hx with hx | hx
    · subst hx; exact jumpStep_ge ops P mu sigma prev s hprev
    · exact ih _ _ (jumpStep_ge ops P mu sigma prev s hprev) x hx

theorem trialLoop_pathTail (E R C : ℚ) :
    ∀ (incomes : List ℚ) (b : ℚ) (wn : Bool) (fn : Option Nat) (exh : Bool)
      (ti : ℚ) (idx : Nat),
      (trialLoop E R C incomes b wn fn exh ti idx).pathTail = specPath E R b incomes := by
  intro incomes
  induction incomes with
  | nil => intro b wn fn exh ti idx; simp [trialLoop, specPath]
  | cons inc rest ih =>
    intro b wn fn exh ti idx
    by_cases hb : b + (inc - E) < 0
    · simp only [trialLoop, hb, if_pos, specPath, stepBalance]
      simp [ih]
    · simp only [trialLoop, hb, if_neg, ite_false, specPath, stepBalance]
      simp [ih]

theorem trialLoop_interest (E R C : ℚ) :
    ∀ (incomes : List ℚ) (b : ℚ) (wn : Bool) (fn : Option Nat) (exh : Bool)
      (ti : ℚ) (idx : Nat),
      (trialLoop E R C incomes b wn fn exh ti idx).totalInterest =
        ti + specInterest E R b incomes := by
  intro incomes
  induction incomes with
  | nil => intro b wn fn exh ti idx; simp [trialLoop, specInterest]
  | cons inc rest ih =>
    intro b wn fn exh ti idx
    by_cases hb : b + (inc - E) < 0
    · simp only [trialLoop, hb, if_pos, specInterest, stepBalance]
      rw [ih]
      ring
    · simp only [trialLoop, hb, if_neg, ite_false, specInterest, stepBalance]
      rw [ih]
      ring

theorem trialLoop_firstNeg_true (E R C : ℚ) :
    ∀ (incomes : List ℚ) (b : ℚ) (fn : Option Nat) (exh : Bool)
      (ti : ℚ) (idx : Nat),
      (trialLoop E R C incomes b true fn exh ti idx).firstNegativeMonth = fn := by
  intro incomes
  induction incomes with
  | nil => intro b fn exh ti idx; simp [trialLoop]
  | cons inc rest ih =>
    intro b fn exh ti idx
    by_cases hb : b + (inc - E) < 0
    · simp only [trialLoop, hb, if_pos]
      simp [ih]
    · simp only [trialLoop, hb, if_neg, ite_false]
      simp [ih]

theorem trialLoop_firstNeg_false (E R C : ℚ) :
    ∀ (incomes : List ℚ) (b : ℚ) (exh : Bool) (ti : ℚ) (idx : Nat),
      (trialLoop E R C incomes b false none exh ti idx).firstNegativeMonth =
        (firstNegativeMonthSpec E b incomes).map (· + idx) := by
  intro incomes
  induction incomes with
  | nil => intro b exh ti idx; simp [trialLoop, firstNegativeMonthSpec]
  | cons inc rest ih =>
    intro b exh ti idx
    by_cases hb : b + (inc - E) < 0
    · simp only [trialLoop, hb, if_pos, firstNegativeMonthSpec]
      simp [trialLoop_firstNeg_true, Nat.add_comm]
    · simp only [trialLoop, hb, if_neg, ite_false, firstNegativeMonthSpec]
      rw [ih]
      cases firstNegativeMonthSpec E (b + (inc - E)) rest with
      | none => rfl
      | some m =>
        simp only [Option.map_map, Option.map_some', Function.comp, Option.some.injEq]
        omega

theorem trialLoop_track_chain (E R C : ℚ) :
    ∀ (incomes : List ℚ) (b : ℚ) (wn : Bool) (fn : Option Nat) (exh : Bool)
      (ti : ℚ) (idx : Nat),
      List.Chain' (· ≤ ·) (exh :: (trialLoop E R C incomes b wn fn exh ti idx).trackTail) := by
  intro incomes
  induction incomes with
  | nil => intro b wn fn exh ti idx; simp [trialLoop]
  | cons inc rest ih =>
    intro b wn fn exh ti idx
    by_cases hb : b + (inc - E) < 0
    · simp only [trialLoop, hb, if_pos]
      refine List.Chain'.cons ?_ (ih _ _ _ _ _ _)
      by_cases he : b + (inc - E) + (b + (inc - E)) * (R / 12) < -C
      · simp [he]
      · simp [he]
    · simp only [trialLoop, hb, if_neg, ite_false]
      exact List.Chain'.cons (le_refl _) (ih _ _ _ _ _ _)

theorem trialLoop_exh_imp_wn (E R C : ℚ) :
    ∀ (incomes : List ℚ) (b : ℚ) (wn : Bool) (fn : Option Nat) (exh : Bool)
      (ti : ℚ) (idx : Nat), (exh = true → wn = true) →
      (trialLoop E R C incomes b wn fn exh ti idx).exhaustedCredit = true →
      (trialLoop E R C incomes b wn fn exh ti idx).wentNegative = true := by
  intro incomes
  induction incomes with
  | nil => intro b wn fn exh ti idx hinv h; simp [trialLoop] at h ⊢; exact hinv h
  | cons inc rest ih =>
    intro b wn fn exh ti idx hinv h
    by_cases hb : b + (inc - E) < 0
    · simp only [trialLoop, hb, if_pos] at h ⊢
      exact ih _ _ _ _ _ _ (fun _ => rfl) h
    · simp only [trialLoop, hb, if_neg, ite_false] at h ⊢
      exact ih _ _ _ _ _ _ hinv h

theorem simTrialsAux_length (ops : Ops) (fund E inc0 C R : ℚ) (n_months : Nat)
    (P : JumpParams) (seed : Option Nat) :
    ∀ (k i : Nat) (s : RNGState),
      (simTrialsAux ops fund E inc0 C R n_months P seed i k s).1.length = k := by
  intro k
  induction k with
  | zero => intro i s; simp [simTrialsAux]
  | succ n ih => intro i s; simp [simTrialsAux, ih]

theorem simTrialsAux_mem (ops : Ops) (fund E inc0 C R : ℚ) (n_months : Nat)
    (P : JumpParams) (seed : Option Nat) :
    ∀ (k i : Nat) (s : RNGState) (tr : TrialResult),
      tr ∈ (simTrialsAux ops fund E inc0 C R n_months P seed i k s).1 →
      ∃ incomes, tr = runTrial fund E R C incomes := by
  intro k
  induction k with
  | zero => intro i s tr h; simp [simTrialsAux] at h
  | succ n ih =>
    intro i s tr h
    simp only [simTrialsAux, List.mem_cons] at h
    rcases h with h | h
    · exact ⟨_, h⟩
    · exact ih _ _ _ h

theorem stopTrialLoop_firstNeg (E : ℚ) :
    ∀ (incomes : List ℚ) (b : ℚ) (m : Nat),
      firstNegativeMonthSpec E b incomes = some m →
      (stopTrialLoop E incomes b).pathTail.length = m ∧
        (stopTrialLoop E incomes b).debtCount = 1 := by
  intro incomes
  induction incomes with
  | nil => intro b m h; simp [firstNegativeMonthSpec] at h
  | cons inc rest ih =>
    intro b m h
    by_cases hb : b + (inc - E) < 0
    · simp only [firstNegativeMonthSpec, hb, if_pos, Option.some.injEq] at h
      subst h
      simp [stopTrialLoop, hb]
    · simp only [firstNegativeMonthSpec, hb, if_neg, ite_false] at h
      rcases Option.map_eq_some'.mp h with ⟨m', hm', rfl⟩
      have := ih (b + (inc - E)) m' hm'
      simp only [stopTrialLoop, hb, if_neg, ite_false]
      simp [this.1, this.2]

theorem sorted_bool_getD_mono {l : List Bool} (hs : List.Sorted (· ≤ ·) l) {i j : Nat}
    (hij : i ≤ j) (hj : j < l.length) : l.getD i false ≤ l.getD j false := by
  have hi : i < l.length := lt_of_le_of_lt hij hj
  rw [List.getD_eq_getElem l false hi, List.getD_eq_getElem l false hj]
  have h := hs.rel_get_of_le (a := ⟨i, hi⟩) (b := ⟨j, hj⟩) (Fin.mk_le_mk.mpr hij)
  simpa [List.get_eq_getElem] using h

theorem boolChain_getD_mono {l : List Bool} (h : List.Chain' (· ≤ ·) l) {i j : Nat}
    (hij : i ≤ j) (hj : j < l.length) (hi : l.getD i false = true) :
    l.getD j false = true := by
  have hs : List.Sorted (· ≤ ·) l := List.chain'_iff_pairwise.mp h
  have h2 := sorted_bool_getD_mono hs hij hj
  rw [hi] at h2
  exact (le_antisymm h2 (Bool.le_true _)).symm

theorem getD_map_range (f : Nat → ℚ) (k m : Nat) (hm : m < k) :
    ((List.range k).map f).getD m 0 = f m := by
  rw [List.getD_eq_getElem _ _ (by simpa using hm), List.getElem_map, List.getElem_range]

theorem pct_mono (a b n : Nat) (hab : a ≤ b) :
    ((a : ℚ) / n) * 100 ≤ ((b : ℚ) / n) * 100 := by
  rcases Nat.eq_zero_or_pos n with rfl | hn
  · simp
  · have hnq : (0 : ℚ) < n := by exact_mod_cast hn
    have habq : (a : ℚ) ≤ b := by exact_mod_cast hab
    have : (a : ℚ) / n ≤ (b : ℚ) / n := by gcongr
    nlinarith [this]

theorem demeanedLogs_length (ops : Ops) (h : List ℚ) :
    (AR1Model.demeanedLogs ops h).length = (positiveObs h).length := by
  simp [AR1Model.demeanedLogs, AR1Model.logObs]

/-- Claim C1.  As stated the claim is false (see the counterexample): the
jump model never floors the first element nor the no-jump months, so a
trajectory started below 100 stays below 100.  Amended: for the jump model
every element is at least 100 whenever the initial income is at least 100,
and for the AR(1) model every element is at least 100 unconditionally,
for every horizon, parameter set, seed and generator state. -/
theorem claim_C1_amended (ops : Ops) (init : ℚ) (n : Nat) (P : JumpParams)
    (rho sigma : ℚ) (seed : Option Nat) (s : RNGState) :
    (100 ≤ init → ∀ x ∈ (RiskEngine.simulate_trajectory ops init n P seed s).1, 100 ≤ x) ∧
    (∀ x ∈ (AR1Model.simulate_trajectory ops init n rho sigma seed s).1, 100 ≤ x) := by
  constructor
  · intro hinit x hx
    cases n with
    | zero => simp [RiskEngine.simulate_trajectory] at hx
    | succ k =>
      simp only [RiskEngine.simulate_trajectory, List.mem_cons] at hx
      rcases hx with rfl | hx
      · exact hinit
      · exact jumpLoop_ge ops P _ _ k init _ hinit x hx
  · intro x hx
    cases n with
    | zero => simp [AR1Model.simulate_trajectory] at hx
    | succ k =>
      simp only [AR1Model.simulate_trajectory, List.mem_map] at hx
      rcases hx with ⟨l, _, rfl⟩
      exact le_max_right _ _

/-- Claim C1, witness: a concrete jump-model run started at 150 stays at or
above the floor. -/
theorem claim_C1_witness :
    (100 : ℚ) ≤ 150 ∧
      ∀ x ∈ (RiskEngine.simulate_trajectory ops0 150 2 P0 (some 1) rng0).1, 100 ≤ x :=
  ⟨by norm_num, (claim_C1_amended ops0 150 2 P0 0 0 (some 1) rng0).1 (by norm_num)⟩

/-- Claim C1, counterexample: with the config.py parameters, a positive
initial income of 50, one month and a seed, the produced trajectory is
[50], whose only element is below the claimed floor of 100. -/
theorem claim_C1_counterexample :
    (RiskEngine.simulate_trajectory ops0 50 1 P0 (some 0) rng0).1 = [50] ∧
      ¬ (100 : ℚ) ≤ 50 := by
  constructor
  · rfl
  · norm_num

/-- Claim C2: with a supplied seed, both simulate_trajectory and
simulate_financial_outcomes are independent of the ambient generator state,
because the global generator is re-seeded on entry; hence two runs with
identical arguments and the same seed produce identical trajectories and
identical full results, including the sampled visualization paths. -/
theorem claim_C2 (ops : Ops) (init fund E credit rate : ℚ)
    (n_months n_sims nsp : Nat) (P : JumpParams) (sd : Nat) (s1 s2 : RNGState) :
    RiskEngine.simulate_trajectory ops init n_months P (some sd) s1 =
      RiskEngine.simulate_trajectory ops init n_months P (some sd) s2 ∧
    RiskEngine.simulate_financial_outcomes ops fund E init credit rate n_months n_sims P
        (some sd) nsp s1 =
      RiskEngine.simulate_financial_outcomes ops fund E init credit rate n_months n_sims P
        (some sd) nsp s2 :=
  ⟨rfl, rfl⟩

/-- Claim C3: in the full-horizon balance simulation, each recorded balance
follows the specification recurrence (add income minus expenses, then
accrue interest balance * rate/12 exactly when the result is negative),
the cumulative interest is the sum of abs(interest) over the negative
months, and first_negative_month is the 1-based index of the first month
whose post-income balance is negative. -/
theorem claim_C3 (fund E R C : ℚ) (incomes : List ℚ) :
    (runTrial fund E R C incomes).path = fund :: specPath E R fund incomes ∧
    (runTrial fund E R C incomes).totalInterest = specInterest E R fund incomes ∧
    (runTrial fund E R C incomes).firstNegativeMonth =
      firstNegativeMonthSpec E fund incomes := by
  refine ⟨?_, ?_, ?_⟩
  · simp [runTrial, trialLoop_pathTail]
  · simp [runTrial, trialLoop_interest]
  · simp [runTrial, trialLoop_firstNeg_false]

/-- Claim C5: in the stop-on-negative variant, a trial whose balance goes
negative in (1-based) month m records a path of length exactly m + 1 and
contributes exactly one debt occurrence; the loop terminates there. -/
theorem claim_C5 (fund E : ℚ) (incomes : List ℚ) (m : Nat)
    (h : firstNegativeMonthSpec E fund incomes = some m) :
    (runStopTrial fund E incomes).1.length = m + 1 ∧
      (runStopTrial fund E incomes).2.2 = 1 := by
  have hh := stopTrialLoop_firstNeg E incomes fund m h
  constructor
  · simp [runStopTrial, hh.1]
  · simp [runStopTrial, hh.2]

/-- Claim C5, witness: a concrete trial going negative in month 1 records a
path of length 2 and one debt occurrence. -/
theorem claim_C5_witness :
    firstNegativeMonthSpec 100 50 [0] = some 1 ∧
      ((runStopTrial 50 100 [0]).1.length = 1 + 1 ∧ (runStopTrial 50 100 [0]).2.2 = 1) :=
  ⟨by norm_num [firstNegativeMonthSpec],
    claim_C5 50 100 [0] 1 (by norm_num [firstNegativeMonthSpec])⟩

theorem simTrials_length (ops : Ops) (fund E inc0 C R : ℚ) (n_months : Nat)
    (P : JumpParams) (seed : Option Nat) (n_sims : Nat) (s : RNGState) :
    (simTrials ops fund E inc0 C R n_months P seed n_sims s).length = n_sims := by
  rw [simTrials]
  exact simTrialsAux_length ops fund E inc0 C R n_months P seed n_sims 0 s

theorem percentileCurve_chain (p q : ℚ) (paths : List (List ℚ)) (n m : Nat)
    (hm : m < n + 1) (hp : paths ≠ []) (h0 : 0 ≤ p) (hpq : p ≤ q) (hq : q ≤ 100) :
    (percentileCurve p paths n).getD m 0 ≤ (percentileCurve q paths n).getD m 0 := by
  rw [percentileCurve, getD_map_range _ _ _ hm, percentileCurve, getD_map_range _ _ _ hm]
  refine percentile_mono _ ?_ h0 hpq hq
  intro hnil
  exact hp (by simpa [colAt] using hnil)

/-- Claim C4: in every result of simulate_financial_outcomes with at least
one trial, the aggregate percentile curves are monotone across the
percentile axis at every month 0..n_months, and the terminal-value
percentiles satisfy the same ordering. -/
theorem claim_C4 (ops : Ops) (fund E inc0 credit rate : ℚ)
    (n_months n_sims : Nat) (P : JumpParams) (seed : Option Nat) (nsp : Nat)
    (s : RNGState) (hsim : 1 ≤ n_sims) (O : SimOutcome)
    (hO : O = RiskEngine.simulate_financial_outcomes ops fund E inc0 credit rate
      n_months n_sims P seed nsp s) :
    (∀ m < n_months + 1,
      O.aggregateStats.p5.getD m 0 ≤ O.aggregateStats.p10.getD m 0 ∧
      O.aggregateStats.p10.getD m 0 ≤ O.aggregateStats.p25.getD m 0 ∧
      O.aggregateStats.p25.getD m 0 ≤ O.aggregateStats.p50.getD m 0 ∧
      O.aggregateStats.p50.getD m 0 ≤ O.aggregateStats.p75.getD m 0 ∧
      O.aggregateStats.p75.getD m 0 ≤ O.aggregateStats.p90.getD m 0 ∧
      O.aggregateStats.p90.getD m 0 ≤ O.aggregateStats.p95.getD m 0) ∧
    (O.statistics.terminalStats.p5 ≤ O.statistics.terminalStats.p10 ∧
      O.statistics.terminalStats.p10 ≤ O.statistics.terminalStats.p25 ∧
      O.statistics.terminalStats.p25 ≤ O.statistics.terminalStats.p50 ∧
      O.statistics.terminalStats.p50 ≤ O.statistics.terminalStats.p75 ∧
      O.statistics.terminalStats.p75 ≤ O.statistics.terminalStats.p90 ∧
      O.statistics.terminalStats.p90 ≤ O.statistics.terminalStats.p95) := by
  subst hO
  have hTlen : (simTrials ops fund E inc0 credit rate n_months P seed n_sims
      ((RNGState.next (seedOr ops seed s)).2)).length = n_sims :=
    simTrials_length ops fund E inc0 credit rate n_months P seed n_sims _
  have hTne : simTrials ops fund E inc0 credit rate n_months P seed n_sims
      ((RNGState.next (seedOr ops seed s)).2) ≠ [] := by
    intro h
    rw [h] at hTlen
    simp at hTlen
    omega
  constructor
  · intro m hm
    dsimp only [RiskEngine.simulate_financial_outcomes]
    refine ⟨?_, ?_, ?_, ?_, ?_, ?_⟩
    · exact percentileCurve_chain 5 10 _ _ _ hm
        (fun hnil => hTne (List.map_eq_nil_iff.mp hnil)) (by norm_num) (by norm_num) (by norm_num)
    · exact percentileCurve_chain 10 25 _ _ _ hm
        (fun hnil => hTne (List.map_eq_nil_iff.mp hnil)) (by norm_num) (by norm_num) (by norm_num)
    · exact percentileCurve_chain 25 50 _ _ _ hm
        (fun hnil => hTne (List.map_eq_nil_iff.mp hnil)) (by norm_num) (by norm_num) (by norm_num)
    · exact percentileCurve_chain 50 75 _ _ _ hm
        (fun hnil => hTne (List.map_eq_nil_iff.mp hnil)) (by norm_num) (by norm_num) (by norm_num)
    · exact percentileCurve_chain 75 90 _ _ _ hm
        (fun hnil => hTne (List.map_eq_nil_iff.mp hnil)) (by norm_num) (by norm_num) (by norm_num)
    · exact percentileCurve_chain 90 95 _ _ _ hm
        (fun hnil => hTne (List.map_eq_nil_iff.mp hnil)) (by norm_num) (by norm_num) (by norm_num)
  · dsimp only [RiskEngine.simulate_financial_outcomes]
    refine ⟨?_, ?_, ?_, ?_, ?_, ?_⟩ <;>
      exact percentile_mono _ (fun hnil => hTne (List.map_eq_nil_iff.mp hnil))
        (by norm_num) (by norm_num) (by norm_num)

/-- Claim C4, witness: the terminal p5 and p10 of a concrete one-trial run
are ordered. -/
theorem claim_C4_witness :
    1 ≤ 1 ∧
      (RiskEngine.simulate_financial_outcomes ops0 0 0 0 0 0 0 1 P0 (some 1) 1
          rng0).statistics.terminalStats.p5 ≤
        (RiskEngine.simulate_financial_outcomes ops0 0 0 0 0 0 0 1 P0 (some 1) 1
          rng0).statistics.terminalStats.p10 :=
  ⟨by norm_num,
    (claim_C4 ops0 0 0 0 0 0 0 1 P0 (some 1) 1 rng0 (by norm_num) _ rfl).2.1⟩

/-- Claim C6: for every trial of simulate_financial_outcomes, the per-month
credit-exhaustion indicator row is false at month 0 and monotone
non-decreasing along the time axis: once true it stays true for all
remaining months of the trial. -/
theorem claim_C6 (ops : Ops) (fund E inc0 credit rate : ℚ) (n_months : Nat)
    (P : JumpParams) (seed : Option Nat) (n_sims : Nat) (s : RNGState)
    (tr : TrialResult)
    (htr : tr ∈ simTrials ops fund E inc0 credit rate n_months P seed n_sims s) :
    tr.tracker.getD 0 false = false ∧
      ∀ i j, i ≤ j → j < tr.tracker.length → tr.tracker.getD i false = true →
        tr.tracker.getD j false = true := by
  obtain ⟨incomes, rfl⟩ :=
    simTrialsAux_mem ops fund E inc0 credit rate n_months P seed n_sims 0 s tr htr
  constructor
  · simp [runTrial]
  · intro i j hij hj hi
    have hchain : List.Chain' (· ≤ ·) (runTrial fund E rate credit incomes).tracker := by
      simp only [runTrial]
      exact trialLoop_track_chain E rate credit incomes fund false none false 0 0
    exact boolChain_getD_mono hchain hij hj hi

/-- Claim C9: with zero monthly expenses the emergency-fund-months risk
metric is reported as infinite (none) and no division is attempted; with
positive monthly expenses it equals initial_fund / monthly_expenses. -/
theorem claim_C9 (ops : Ops) (fund E inc0 credit rate : ℚ)
    (n_months n_sims nsp : Nat) (P : JumpParams) (seed : Option Nat) (s : RNGState) :
    (E = 0 →
      (RiskEngine.simulate_financial_outcomes ops fund E inc0 credit rate n_months
        n_sims P seed nsp s).riskMetrics.emergencyFundMonths = none) ∧
    (0 < E →
      (RiskEngine.simulate_financial_outcomes ops fund E inc0 credit rate n_months
        n_sims P seed nsp s).riskMetrics.emergencyFundMonths = some (fund / E)) := by
  constructor
  · intro hE
    subst hE
    dsimp only [RiskEngine.simulate_financial_outcomes]
    rw [if_neg]
    norm_num
  · intro hE
    dsimp only [RiskEngine.simulate_financial_outcomes]
    rw [if_pos hE]

/-- Claim C9, witness: a run with expenses 0 reports an infinite
emergency fund, and a run with expenses 2 and fund 5 reports 5/2. -/
theorem claim_C9_witness :
    ((0 : ℚ) = 0 ∧
      (RiskEngine.simulate_financial_outcomes ops0 5 0 0 0 0 0 1 P0 (some 1) 1
        rng0).riskMetrics.emergencyFundMonths = none) ∧
    ((0 : ℚ) < 2 ∧
      (RiskEngine.simulate_financial_outcomes ops0 5 2 0 0 0 0 1 P0 (some 1) 1
        rng0).riskMetrics.emergencyFundMonths = some (5 / 2)) :=
  ⟨⟨rfl, (claim_C9 ops0 5 0 0 0 0 0 1 1 P0 (some 1) rng0).1 rfl⟩,
   ⟨by norm_num, (claim_C9 ops0 5 2 0 0 0 0 1 1 P0 (some 1) rng0).2 (by norm_num)⟩⟩

/-- Claim C10: a trial's credit-exhausted flag can only be set in a month
whose post-update balance is negative, so every credit-exhausted trial also
went negative, and in every result creditExhaustionPct is at most
everNegativePct. -/
theorem claim_C10 (ops : Ops) (fund E inc0 credit rate : ℚ)
    (n_months n_sims nsp : Nat) (P : JumpParams) (seed : Option Nat) (s : RNGState) :
    (∀ tr ∈ simTrials ops fund E inc0 credit rate n_months P seed n_sims s,
        tr.exhaustedCredit = true → tr.wentNegative = true) ∧
    (RiskEngine.simulate_financial_outcomes ops fund E inc0 credit rate n_months
        n_sims P seed nsp s).statistics.creditExhaustionPct ≤
      (RiskEngine.simulate_financial_outcomes ops fund E inc0 credit rate n_months
        n_sims P seed nsp s).statistics.everNegativePct := by
  constructor
  · intro tr htr hexh
    obtain ⟨incomes, rfl⟩ :=
      simTrialsAux_mem ops fund E inc0 credit rate n_months P seed n_sims 0 s tr htr
    revert hexh
    simp only [runTrial]
    exact trialLoop_exh_imp_wn E rate credit incomes fund false none false 0 0 id
  · dsimp only [RiskEngine.simulate_financial_outcomes]
    apply pct_mono
    apply List.countP_mono_left
    intro tr htr hexh
    obtain ⟨incomes, rfl⟩ :=
      simTrialsAux_mem ops fund E inc0 credit rate n_months P seed n_sims 0 _ tr htr
    revert hexh
    simp only [runTrial]
    exact trialLoop_exh_imp_wn E rate credit incomes fund false none false 0 0 id

/-- Claim C6, witness: in a concrete run whose single trial exhausts its
zero credit line in month 1, the tracker stays true through the last month. -/
theorem claim_C6_witness :
    ((simTrials ops0 0 5000 1000 0 0 1 P0 (some 1) 1 rng0).headD
        default).tracker.getD 1 false = true := by
  have hmem : (simTrials ops0 0 5000 1000 0 0 1 P0 (some 1) 1 rng0).headD default ∈
      simTrials ops0 0 5000 1000 0 0 1 P0 (some 1) 1 rng0 := by
    norm_num [simTrials, simTrialsAux, innerSeed, RiskEngine.simulate_trajectory,
      seedOr, npSeed, jumpLoop, runTrial, trialLoop, ops0, rng0, P0, RNGState.next]
  have h := claim_C6 ops0 0 5000 1000 0 0 1 P0 (some 1) 1 rng0 _ hmem
  refine h.2 1 1 le_rfl ?_ ?_
  · norm_num [simTrials, simTrialsAux, innerSeed, RiskEngine.simulate_trajectory,
      seedOr, npSeed, jumpLoop, runTrial, trialLoop, ops0, rng0, P0, RNGState.next]
  · norm_num [simTrials, simTrialsAux, innerSeed, RiskEngine.simulate_trajectory,
      seedOr, npSeed, jumpLoop, runTrial, trialLoop, ops0, rng0, P0, RNGState.next]

/-- Claim C10, witness: the single trial of a concrete run that exhausts
credit is also a trial that went negative, and the run's percentages are
ordered. -/
theorem claim_C10_witness :
    ((simTrials ops0 0 5000 1000 0 0 1 P0 (some 2) 1 rng0).headD
        default).wentNegative = true ∧
      (RiskEngine.simulate_financial_outcomes ops0 0 5000 1000 0 0 1 1 P0 (some 2) 1
          rng0).statistics.creditExhaustionPct ≤
        (RiskEngine.simulate_financial_outcomes ops0 0 5000 1000 0 0 1 1 P0 (some 2) 1
          rng0).statistics.everNegativePct := by
  constructor
  · apply (claim_C10 ops0 0 5000 1000 0 0 1 1 1 P0 (some 2) rng0).1
    · norm_num [simTrials, simTrialsAux, innerSeed, RiskEngine.simulate_trajectory,
        seedOr, npSeed, jumpLoop, runTrial, trialLoop, ops0, rng0, P0, RNGState.next]
    · norm_num [simTrials, simTrialsAux, innerSeed, RiskEngine.simulate_trajectory,
        seedOr, npSeed, jumpLoop, runTrial, trialLoop, ops0, rng0, P0, RNGState.next]
  · exact (claim_C10 ops0 0 5000 1000 0 0 1 1 1 P0 (some 2) rng0).2

/-- Claim C7.  As stated the claim is false (see the counterexample): a
household with at least 6 positive observations whose lag variance is not
above 1e-6 is excluded from the rho and sigma aggregates but its mean log
income still enters the mu aggregate, which is appended before the
variance check.  Amended: a household with fewer than 6 positive
observations is excluded from all three aggregates; a household with at
least 6 positive observations but lag variance not above 1e-6 is excluded
from rho and sigma only, while its mean still enters the mu list; the
fallbacks rho = 0.7 and sigma = 0.15 apply when no household passes both
checks, mu is the median of the collected means when any household has at
least 6 positive observations and falls back to 8.5 only when none does. -/
theorem claim_C7_amended (ops : Ops) (h : List ℚ) (data : List (List ℚ)) :
    ((positiveObs h).length < 6 →
      AR1Model.householdMeans ops (h :: data) = AR1Model.householdMeans ops data ∧
      AR1Model.householdRhos ops (h :: data) = AR1Model.householdRhos ops data ∧
      AR1Model.householdSigmas ops (h :: data) = AR1Model.householdSigmas ops data) ∧
    (6 ≤ (positiveObs h).length → ¬ AR1Model.lagVarOf ops h > 1 / 1000000 →
      AR1Model.householdMeans ops (h :: data) =
        AR1Model.muOf ops h :: AR1Model.householdMeans ops data ∧
      AR1Model.householdRhos ops (h :: data) = AR1Model.householdRhos ops data ∧
      AR1Model.householdSigmas ops (h :: data) = AR1Model.householdSigmas ops data) ∧
    (AR1Model.householdRhos ops data = [] →
      (AR1Model.estimate_ar1_parameters ops data).rho = 7 / 10) ∧
    (AR1Model.householdSigmas ops data = [] →
      (AR1Model.estimate_ar1_parameters ops data).sigma = 3 / 20) ∧
    (AR1Model.householdMeans ops data ≠ [] →
      (AR1Model.estimate_ar1_parameters ops data).mu =
        medianQ (AR1Model.householdMeans ops data)) ∧
    (AR1Model.householdMeans ops data = [] →
      (AR1Model.estimate_ar1_parameters ops data).mu = 17 / 2) := by
  refine ⟨?_, ?_, ?_, ?_, ?_, ?_⟩
  · intro hlt
    have h6 : ¬ 6 ≤ (positiveObs h).length := by omega
    have hq : ¬ AR1Model.qualifiesRho ops h := fun hq => h6 hq.1
    refine ⟨?_, ?_, ?_⟩ <;>
      simp [AR1Model.householdMeans, AR1Model.householdRhos, AR1Model.householdSigmas,
        List.filterMap_cons, h6, hq]
  · intro h6 hvar
    have hq : ¬ AR1Model.qualifiesRho ops h := fun hq => hvar hq.2.2
    refine ⟨?_, ?_, ?_⟩ <;>
      simp [AR1Model.householdMeans, AR1Model.householdRhos, AR1Model.householdSigmas,
        List.filterMap_cons, h6, hq]
  · intro hr
    simp [AR1Model.estimate_ar1_parameters, hr]
  · intro hs
    simp [AR1Model.estimate_ar1_parameters, hs]
  · intro hm
    simp [AR1Model.estimate_ar1_parameters, hm]
  · intro hm
    simp [AR1Model.estimate_ar1_parameters, hm]

/-- Claim C7, witness: a household of six equal positive incomes (zero lag
variance) still contributes its mean to the mu aggregate, and on an empty
panel the mu fallback 8.5 applies. -/
theorem claim_C7_witness :
    AR1Model.householdMeans ops0 ([1, 1, 1, 1, 1, 1] :: []) =
        AR1Model.muOf ops0 [1, 1, 1, 1, 1, 1] :: AR1Model.householdMeans ops0 [] ∧
      (AR1Model.estimate_ar1_parameters ops0 []).mu = 17 / 2 :=
  ⟨((claim_C7_amended ops0 [1, 1, 1, 1, 1, 1] []).2.1
      (by norm_num [positiveObs, List.filter_cons, decide_eq_true_eq])
      (by norm_num [AR1Model.lagVarOf, AR1Model.demeanedLogs, AR1Model.logObs,
        AR1Model.muOf, positiveObs, List.filter_cons, decide_eq_true_eq,
        meanQ, popVar, ops0])).1,
    (claim_C7_amended ops0 [1, 1, 1, 1, 1, 1] []).2.2.2.2.2 rfl⟩

/-- Claim C7, counterexample: for the panel consisting of one household
with six equal positive incomes, no household qualifies (the lag variance
is 0), rho and sigma fall back to 0.7 and 0.15, yet mu is the household's
mean log income 1 (under the concrete ops with log = id) and not the
fallback 8.5, contradicting the claimed exclusion of such households from
every aggregated parameter. -/
theorem claim_C7_counterexample :
    (AR1Model.estimate_ar1_parameters ops0 [[1, 1, 1, 1, 1, 1]]).rho = 7 / 10 ∧
    (AR1Model.estimate_ar1_parameters ops0 [[1, 1, 1, 1, 1, 1]]).sigma = 3 / 20 ∧
    (AR1Model.estimate_ar1_parameters ops0 [[1, 1, 1, 1, 1, 1]]).mu = 1 ∧
    ¬ ((1 : ℚ) = 17 / 2) := by
  refine ⟨?_, ?_, ?_, by norm_num⟩ <;>
    norm_num [AR1Model.estimate_ar1_parameters, AR1Model.householdMeans,
      AR1Model.householdRhos, AR1Model.householdSigmas, AR1Model.qualifiesRho,
      AR1Model.muOf, AR1Model.logObs, AR1Model.lagVarOf, AR1Model.demeanedLogs,
      positiveObs, meanQ, popVar, medianQ, sortQ, ops0, List.insertionSort,
      List.orderedInsert, List.filterMap, List.filter_cons, decide_eq_true_eq]

theorem pctChanges_length (xs : List ℚ) : (pctChanges xs).length = xs.length - 1 := by
  simp only [pctChanges, List.length_zipWith, List.length_drop]
  omega

/-- Claim C8.  As stated the claim is false (see the counterexample): the
gate counts all percent changes between consecutive positive observations,
not only the non-zero ones, and the moment ratio is additionally undefined
when the percent changes have zero variance.  Amended: skewness is absent
exactly when the number of percent changes is below 3 or their second
central moment is zero, and kurtosis is absent exactly when that number is
below 4 or the second central moment is zero; a degenerate case yields
absent entries, never a failure of the whole computation. -/
theorem claim_C8_amended (ops : Ops) (income : List ℚ) :
    ((Statistics.calc_household_stats ops income).skewness = none ↔
      (pctChanges (positiveObs income)).length < 3 ∨
        centralMoment 2 (pctChanges (positiveObs income)) = 0) ∧
    ((Statistics.calc_household_stats ops income).kurtosis = none ↔
      (pctChanges (positiveObs income)).length < 4 ∨
        centralMoment 2 (pctChanges (positiveObs income)) = 0) := by
  by_cases hlen : (positiveObs income).length < 2
  · have hp3 : (pctChanges (positiveObs income)).length < 3 := by
      rw [pctChanges_length]; omega
    have hp4 : (pctChanges (positiveObs income)).length < 4 := by
      rw [pctChanges_length]; omega
    simp [Statistics.calc_household_stats, hlen, hp3, hp4]
  · by_cases h3 : 3 ≤ (pctChanges (positiveObs income)).length
    · by_cases h4 : 4 ≤ (pctChanges (positiveObs income)).length
      · by_cases hm : centralMoment 2 (pctChanges (positiveObs income)) = 0
        · simp [Statistics.calc_household_stats, hlen, h3, h4, hm, skewQ, kurtQ]
        · simp [Statistics.calc_household_stats, hlen, h3, h4, hm, skewQ, kurtQ]
          try omega
      · by_cases hm : centralMoment 2 (pctChanges (positiveObs income)) = 0
        · simp [Statistics.calc_household_stats, hlen, h3, h4, hm, skewQ, kurtQ]
          try omega
        · simp [Statistics.calc_household_stats, hlen, h3, h4, hm, skewQ, kurtQ]
          try omega
    · have h4 : ¬ 4 ≤ (pctChanges (positiveObs income)).length := by omega
      simp [Statistics.calc_household_stats, hlen, h3, h4]
      try omega

/-- Claim C8, counterexample: for the household series [100, 100, 200, 100]
the percent changes are [0, 1, -1/2]; only 2 of them are non-zero, yet
skewness is present (the gate counts all 3 changes), contradicting the
claim that skewness is absent exactly when there are fewer than 3 non-zero
percent changes. -/
theorem claim_C8_counterexample :
    ((Statistics.calc_household_stats ops0 [100, 100, 200, 100]).skewness).isSome = true ∧
    (pctChanges (positiveObs [100, 100, 200, 100])).countP (fun c => decide (c ≠ 0)) = 2 ∧
    (2 : Nat) < 3 := by
  refine ⟨?_, ?_, by norm_num⟩
  · norm_num [Statistics.calc_household_stats, positiveObs, List.filter_cons,
      decide_eq_true_eq, pctChanges, skewQ, centralMoment, meanQ, ops0]
  · norm_num [pctChanges, positiveObs, List.filter_cons, decide_eq_true_eq,
      List.countP_cons]

end HouseholdSim
